import Mathlib

/-!
Verification of the claudelet server core: a shallow embedding of the
session/process-multiplexing routes (src/server/src/routes/chat.ts,
terminal.ts, sessions.ts, repositories.ts) together with theorems about
the behaviour the specification describes.

The terminal-session persistence accessors (createTerminalSession,
getTerminalSession, getUserTerminalSessions, updateTerminalSession) are
embedded from the database module found in src/server/src/index.ts as
pure operations on a list of session rows.  The repository/workspace
persistence accessors (getRepository, getWorkspaceByBranch) are not in
the source tree and are modelled from the specification; they are marked
as such below.
-/

set_option autoImplicit false

/-- Duck-typed JSON value, the shape of the records the assistant child
process streams on stdout and that processClaudeEvent probes. -/
inductive Json where
  | null
  | bool (b : Bool)
  | num (n : Int)
  | str (s : String)
  | arr (items : List Json)
  | obj (fields : List (String × Json))

/-- Field lookup in a JSON object literal (first match wins, as in a
JavaScript object whose keys are unique). -/
def lookupField : List (String × Json) → String → Option Json
  | [], _ => none
  | (k, v) :: rest, key => if k = key then some v else lookupField rest key

/-- Models JavaScript property access `e.key`: `undefined` (here `none`)
on anything that is not an object with that key. -/
def Json.getField : Json → String → Option Json
  | .obj fields, key => lookupField fields key
  | _, _ => none

/-- JavaScript truthiness of a possibly-absent value: `undefined`, `null`,
`false`, `0` and the empty string are falsy, everything else truthy. -/
def jsTruthy : Option Json → Bool
  | none => false
  | some .null => false
  | some (.bool b) => b
  | some (.num n) => n != 0
  | some (.str s) => s != ""
  | some (.arr _) => true
  | some (.obj _) => true

/-- Models the JavaScript expression `a || b`. -/
def jsOr (a b : Option Json) : Option Json :=
  if jsTruthy a then a else b

mutual

/-- Models `JSON.stringify` (compactly; the source passes an indent of 2,
which only changes whitespace). -/
def Json.stringify : Json → String
  | .null => "null"
  | .bool b => cond b "true" "false"
  | .num n => toString n
  | .str s => "\"" ++ s ++ "\""
  | .arr items => "[" ++ stringifyList items ++ "]"
  | .obj fields => "\x7b" ++ stringifyFields fields ++ "\x7d"

/-- Comma-separated serialization of a JSON array body. -/
def stringifyList : List Json → String
  | [] => ""
  | [j] => Json.stringify j
  | j :: rest => Json.stringify j ++ "," ++ stringifyList rest

/-- Comma-separated serialization of a JSON object body. -/
def stringifyFields : List (String × Json) → String
  | [] => ""
  | [(k, v)] => "\"" ++ k ++ "\":" ++ Json.stringify v
  | (k, v) :: rest => "\"" ++ k ++ "\":" ++ Json.stringify v ++ "," ++ stringifyFields rest

end

/-- The ChatMessage union of chat.ts: the normalized Outbound Events the
chat route serializes to the socket.  Fields that the source reads off
duck-typed JSON are kept as optional JSON values. -/
inductive ChatMsg where
  | userMsg (content : String) (timestamp : Nat)
  | assistantMsg (content : Option Json) (timestamp : Nat)
  | toolUseMsg (tool toolId params : Option Json) (timestamp : Nat)
  | toolResultMsg (toolId : Option Json) (result : Option String) (isError : Bool) (timestamp : Nat)
  | errorMsg (content : Option Json) (timestamp : Option Nat)
  | statusMsg (status : String) (timestamp : Option Nat)
  | systemMsg (content : String) (timestamp : Nat)

/-- The `typeof result === "string" ? result : JSON.stringify(result, null, 2)`
step of the tool_result branch; `none` when both payload fields were absent. -/
def resultTextOf : Option Json → Option String
  | some (.str s) => some s
  | some j => some (Json.stringify j)
  | none => none

/-- One iteration of the for-loop over a message record's content array in
processClaudeEvent: text blocks become `assistant` events, tool_use blocks
become `tool_use` events, anything else is skipped. -/
def blockToMsg (now : Nat) (block : Json) : Option ChatMsg :=
  match block.getField "type" with
  | some (.str "text") => some (.assistantMsg (block.getField "text") now)
  | some (.str "tool_use") =>
      some (.toolUseMsg (block.getField "name") (block.getField "id") (block.getField "input") now)
  | _ => none

/-- processClaudeEvent from chat.ts: normalizes one parsed JSON-lines
record from the assistant process into the list of Outbound Events sent
to the socket. -/
def processClaudeEvent (now : Nat) (event : Json) : List ChatMsg :=
  match event.getField "type" with
  | some (.str eventType) =>
    if eventType = "assistant" ∨ eventType = "message" then
      let content :=
        jsOr ((event.getField "message").bind (fun m => m.getField "content"))
          (event.getField "content")
      match content with
      | some (.arr blocks) => blocks.filterMap (blockToMsg now)
      | some (.str s) => [.assistantMsg (some (.str s)) now]
      | _ => []
    else if eventType = "content_block_start" ∨ eventType = "content_block" then
      match event.getField "content_block" with
      | some block =>
        match block.getField "type" with
        | some (.str "text") => [.assistantMsg (block.getField "text") now]
        | some (.str "tool_use") =>
            [.toolUseMsg (block.getField "name") (block.getField "id")
              (block.getField "input") now]
        | _ => []
      | none => []
    else if eventType = "tool_use" then
      [.toolUseMsg
        (jsOr (event.getField "name") ((event.getField "tool_use").bind (fun t => t.getField "name")))
        (jsOr (event.getField "id") ((event.getField "tool_use").bind (fun t => t.getField "id")))
        (jsOr (event.getField "input") ((event.getField "tool_use").bind (fun t => t.getField "input")))
        now]
    else if eventType = "tool_result" then
      [.toolResultMsg
        (jsOr (event.getField "tool_use_id") (event.getField "id"))
        (resultTextOf (jsOr (event.getField "content") (event.getField "result")))
        (jsTruthy (event.getField "is_error"))
        now]
    else if eventType = "error" then
      [.errorMsg
        (jsOr (jsOr (event.getField "message") (event.getField "error"))
          (some (.str "Unknown error")))
        (some now)]
    else if eventType = "result" then
      []
    else []
  | _ => []

/-- Entry of the in-memory process registry maps (`activeProcesses`,
`activePtys`): the session id a live process is registered under. -/
structure ProcEntry where
  pid : Nat
  sessionId : String
deriving DecidableEq

/-- State of the chat route (chat.ts): the `activeProcesses` map from
session id to child process, plus bookkeeping of which OS processes have
been spawned and are still open (`liveProcs`) and which have been sent a
termination signal (`killedPids`).  `nextPid` models OS pid allocation. -/
structure ChatState where
  activeProcesses : List (String × Nat)
  liveProcs : List ProcEntry
  killedPids : List Nat
  nextPid : Nat
deriving DecidableEq

/-- Lookup in a string-keyed map modelled as an association list
(JavaScript `Map.get`). -/
def lookupA : List (String × Nat) → String → Option Nat
  | [], _ => none
  | (k, v) :: rest, key => if k = key then some v else lookupA rest key

/-- Removal from a string-keyed map (JavaScript `Map.delete`). -/
def removeA : List (String × Nat) → String → List (String × Nat)
  | [], _ => []
  | (k, v) :: rest, key => if k = key then removeA rest key else (k, v) :: removeA rest key

/-- Insertion/overwrite in a string-keyed map (JavaScript `Map.set`). -/
def setA (m : List (String × Nat)) (key : String) (v : Nat) : List (String × Nat) :=
  (key, v) :: removeA m key

/-- Models the JavaScript expression `a || b` on an optional string with a
string fallback (empty string is falsy). -/
def jsOrStr (a : Option String) (b : String) : String :=
  match a with
  | some s => if s = "" then b else s
  | none => b

/-- Models the string coercion JavaScript applies to `undefined` when it is
concatenated with a string, as in `process.env.PATH + ":/usr/local/bin"`. -/
def jsUndefToStr : Option String → String
  | some s => s
  | none => "undefined"

/-- Models node `path.join` for plain segments (no separators inside a
segment, no normalization needed). -/
def pathJoin (a b : String) : String :=
  a ++ "/" ++ b

/-- getUserClaudeConfigDir from chat.ts: the per-user credential/config
directory, `(process.env.HOME || "/tmp") + "/.claudelet-users/" + userId`.
ensureUserConfigDir returns the same path after creating the directory. -/
def getUserClaudeConfigDir (ambientHome : Option String) (userId : String) : String :=
  pathJoin (pathJoin (jsOrStr ambientHome "/tmp") ".claudelet-users") userId

/-- Environment of the assistant child process as built in
handleUserMessage: the ambient server environment with ANTHROPIC_API_KEY
deleted, then PATH extended and HOME, CLAUDE_CONFIG_DIR,
CLAUDE_CODE_REMOTE, NO_COLOR and FORCE_COLOR overridden. -/
def chatSpawnEnv (ambient : String → Option String) (userId : String) :
    String → Option String :=
  fun key =>
    if key = "FORCE_COLOR" then some "0"
    else if key = "NO_COLOR" then some "1"
    else if key = "CLAUDE_CODE_REMOTE" then some "1"
    else if key = "CLAUDE_CONFIG_DIR" then some (getUserClaudeConfigDir (ambient "HOME") userId)
    else if key = "HOME" then some (getUserClaudeConfigDir (ambient "HOME") userId)
    else if key = "PATH" then some (jsUndefToStr (ambient "PATH") ++ ":/usr/local/bin")
    else if key = "ANTHROPIC_API_KEY" then none
    else ambient key

/-- The spawn call of handleUserMessage: command, arguments, working
directory and environment of the assistant child process. -/
structure SpawnRec where
  cmd : String
  args : List String
  cwd : String
  env : String → Option String

/-- handleUserMessage from chat.ts: echoes the user message, emits the
`thinking` status, spawns the assistant child process (with no check of
`activeProcesses`) and overwrites the session's registry entry with the
new process.  Returns the new state, the messages sent so far, and the
spawn record. -/
def handleUserMessage (st : ChatState) (sessionId workspacePath userId content : String)
    (ambient : String → Option String) (now : Nat) :
    ChatState × List ChatMsg × SpawnRec :=
  let sent := [ChatMsg.userMsg content now, ChatMsg.statusMsg "thinking" none]
  let sp : SpawnRec :=
    { cmd := "/usr/local/bin/claude"
      args := ["--print", "--verbose", "--output-format", "stream-json",
               "--dangerously-skip-permissions", "-p", content]
      cwd := workspacePath
      env := chatSpawnEnv ambient userId }
  let st1 : ChatState :=
    { activeProcesses := setA st.activeProcesses sessionId st.nextPid
      liveProcs := { pid := st.nextPid, sessionId := sessionId } :: st.liveProcs
      killedPids := st.killedPids
      nextPid := st.nextPid + 1 }
  (st1, sent, sp)

/-- abortCurrentProcess from chat.ts: if a process is registered for the
session, send it SIGTERM and remove the registry entry; otherwise do
nothing. -/
def abortCurrentProcess (st : ChatState) (sessionId : String) : ChatState :=
  match lookupA st.activeProcesses sessionId with
  | some pid =>
    { st with
      killedPids := pid :: st.killedPids
      activeProcesses := removeA st.activeProcesses sessionId }
  | none => st

/-- The chat WebSocket close handler (chat.ts): aborts any in-flight
assistant invocation for the session. -/
def chatSocketClose (st : ChatState) (sessionId : String) : ChatState :=
  abortCurrentProcess st sessionId

/-- Session status enum persisted in the Session record. -/
inductive SessionStatus where
  | created
  | running
  | stopped
  | error
deriving DecidableEq

/-- The TerminalSession row of the database module
(src/server/src/index.ts): id, user_id, container_id, workspace_path,
project_name, status, created_at, last_activity_at. -/
structure SessionRec where
  id : String
  user_id : String
  container_id : Option String
  workspace_path : String
  project_name : Option String
  status : SessionStatus
  created_at : Nat
  last_activity_at : Nat
deriving DecidableEq

/-- getTerminalSession from the database module
(src/server/src/index.ts): `SELECT * FROM terminal_sessions WHERE
id = ?` — the row with the matching primary key, if any. -/
def getTerminalSession : List SessionRec → String → Option SessionRec
  | [], _ => none
  | s :: rest, sid => if s.id = sid then some s else getTerminalSession rest sid

/-- The partial-update argument of updateTerminalSession, restricted (as
in the source) to the allowed fields container_id, status,
last_activity_at and project_name; an outer `none` means the field is
not part of the update. -/
structure SessionUpdates where
  container_id : Option (Option String)
  status : Option SessionStatus
  last_activity_at : Option Nat
  project_name : Option (Option String)

/-- The SET clause of updateTerminalSession applied to one row: each
field present in the update overwrites the row's field. -/
def applyUpdates (u : SessionUpdates) (s : SessionRec) : SessionRec :=
  { s with
    container_id := u.container_id.getD s.container_id
    status := u.status.getD s.status
    last_activity_at := u.last_activity_at.getD s.last_activity_at
    project_name := u.project_name.getD s.project_name }

/-- updateTerminalSession from the database module
(src/server/src/index.ts): `UPDATE terminal_sessions SET ... WHERE
id = ?`, the update restricted to the allowed fields. -/
def updateTerminalSession (db : List SessionRec) (sid : String)
    (u : SessionUpdates) : List SessionRec :=
  db.map (fun s => if s.id = sid then applyUpdates u s else s)

/-- The call `updateTerminalSession(sessionId, { status })` as made by
terminal.ts (status is an allowed field of the update). -/
def updateTerminalSessionStatus (db : List SessionRec) (sid : String)
    (st : SessionStatus) : List SessionRec :=
  updateTerminalSession db sid
    { container_id := none, status := some st, last_activity_at := none, project_name := none }

/-- The call `updateTerminalSession(sessionId, { last_activity_at })` as
made by terminal.ts (last_activity_at is an allowed field of the
update). -/
def updateTerminalSessionActivity (db : List SessionRec) (sid : String)
    (ts : Nat) : List SessionRec :=
  updateTerminalSession db sid
    { container_id := none, status := none, last_activity_at := some ts, project_name := none }

/-- Insertion step of the `ORDER BY last_activity_at DESC` ordering of
getUserTerminalSessions. -/
def insertByActivity (s : SessionRec) : List SessionRec → List SessionRec
  | [] => [s]
  | t :: rest =>
    if t.last_activity_at ≤ s.last_activity_at then s :: t :: rest
    else t :: insertByActivity s rest

/-- Insertion sort by last-activity descending. -/
def sortByActivityDesc : List SessionRec → List SessionRec
  | [] => []
  | s :: rest => insertByActivity s (sortByActivityDesc rest)

/-- getUserTerminalSessions from the database module
(src/server/src/index.ts): `SELECT * FROM terminal_sessions WHERE
user_id = ? ORDER BY last_activity_at DESC` — every session row of the
user, whatever its status, ordered by last activity descending. -/
def getUserTerminalSessions (db : List SessionRec) (userId : String) : List SessionRec :=
  sortByActivityDesc (db.filter (fun s => s.user_id == userId))

/-- maxSessionsPerUser from config.ts (default 5). -/
def maxSessionsPerUser : Nat := 5

/-- Response of the session-creation route. -/
inductive CreateSessionResp where
  | quotaError (message : String)
  | created (s : SessionRec)
deriving DecidableEq

/-- createTerminalSession from the database module
(src/server/src/index.ts): `INSERT INTO terminal_sessions (id, user_id,
container_id, workspace_path, project_name) VALUES (...)`; status and
the two timestamps take their column defaults (`created` and the current
unix time), and the inserted row is returned. -/
def createTerminalSession (db : List SessionRec) (id userId : String)
    (containerId : Option String) (workspacePath : String)
    (projectName : Option String) (now : Nat) : List SessionRec × SessionRec :=
  let s : SessionRec :=
    { id := id
      user_id := userId
      container_id := containerId
      workspace_path := workspacePath
      project_name := projectName
      status := SessionStatus.created
      created_at := now
      last_activity_at := now }
  (db ++ [s], s)

/-- The POST / handler of sessions.ts: reject with a quota error when the
user's existing session records already number `maxSessionsPerUser`,
otherwise create the workspace directory and persist a new session
record via createTerminalSession (container_id null). -/
def createSessionHandler (db : List SessionRec) (userId : String) (newId : String)
    (projectName : Option String) (workspaceBasePath : String) (now : Nat) :
    List SessionRec × CreateSessionResp :=
  let existingSessions := getUserTerminalSessions db userId
  if maxSessionsPerUser ≤ existingSessions.length then
    (db, CreateSessionResp.quotaError
      ("Maximum " ++ toString maxSessionsPerUser ++ " sessions allowed"))
  else
    let r := createTerminalSession db newId userId none
      (pathJoin (pathJoin workspaceBasePath userId) newId) projectName now
    (r.1, CreateSessionResp.created r.2)

/-- The reading of the claim under examination: the number of the user's
live sessions, i.e. session records whose status is `running`.  This
definition follows the specification's words, not the source, and is
compared against what createSessionHandler actually counts. -/
def liveSessionCountSpec (db : List SessionRec) (userId : String) : Nat :=
  (db.filter (fun s => s.user_id == userId && decide (s.status = SessionStatus.running))).length

/-- State of the terminal route (terminal.ts): the `activePtys` registry,
the persisted session records, and bookkeeping of spawned and killed PTY
processes. -/
structure TermState where
  activePtys : List (String × Nat)
  sessions : List SessionRec
  spawnedPids : List Nat
  killedPids : List Nat
  nextPid : Nat
deriving DecidableEq

/-- Outbound frames of the PTY channel wire protocol. -/
inductive TermOut where
  | connected (sessionId : String) (cols rows : Nat)
  | output (data : String)
  | exit (exitCode : Int)
  | errorFrame (message : String)
  | pong
deriving DecidableEq

/-- Result of the terminal WebSocket connection setup. -/
structure ConnectResult where
  state : TermState
  attachedPid : Nat
  spawned : Bool
  frames : List TermOut
deriving DecidableEq

/-- The connection setup of the terminal WebSocket handler (terminal.ts,
after authentication and session validation): reuse the registered PTY
for the session when one exists, otherwise spawn a new PTY, register it
and persist status `running`; in both cases send the `connected` frame
and attach the socket to the (single) PTY process. -/
def terminalConnect (st : TermState) (sessionId : String) : ConnectResult :=
  match lookupA st.activePtys sessionId with
  | some pid =>
    { state := st
      attachedPid := pid
      spawned := false
      frames := [TermOut.connected sessionId 80 24] }
  | none =>
    let pid := st.nextPid
    { state :=
        { activePtys := setA st.activePtys sessionId pid
          sessions := updateTerminalSessionStatus st.sessions sessionId SessionStatus.running
          spawnedPids := pid :: st.spawnedPids
          killedPids := st.killedPids
          nextPid := pid + 1 }
      attachedPid := pid
      spawned := true
      frames := [TermOut.connected sessionId 80 24] }

/-- The onData output handler the terminal route registers on the attached
PTY process: forward each chunk verbatim as an `output` frame while the
socket is open. -/
def outputHandler (socketOpen : Bool) (data : String) : List TermOut :=
  if socketOpen then [TermOut.output data] else []

/-- exitHandler from terminal.ts: on PTY exit unregister the session,
persist status `stopped`, and, when the socket is still open, send one
`exit` frame with the code and close with the normal-closure code 1000. -/
def exitHandler (st : TermState) (sessionId : String) (exitCode : Int) (socketOpen : Bool) :
    TermState × List TermOut × Option (Nat × String) :=
  let st1 : TermState :=
    { st with
      activePtys := removeA st.activePtys sessionId
      sessions := updateTerminalSessionStatus st.sessions sessionId SessionStatus.stopped }
  if socketOpen then (st1, [TermOut.exit exitCode], some (1000, "Process exited"))
  else (st1, [], none)

/-- The terminal WebSocket close handler (terminal.ts): it only logs; the
PTY is deliberately not killed so that the client can reconnect. -/
def terminalSocketClose (st : TermState) (_sessionId : String) : TermState :=
  st

/-- The `input` frame branch of the terminal message handler
(terminal.ts): forward `data` to the PTY and bump the session's
last-activity timestamp only when `data` is truthy (present and
non-empty) and a PTY process is in scope. -/
def handleInputFrame (st : TermState) (sessionId : String) (pty : Option Nat)
    (data : Option String) (now : Nat) : TermState × List (Nat × String) :=
  match pty, data with
  | some p, some s =>
    if s != "" then
      ({ st with sessions := updateTerminalSessionActivity st.sessions sessionId now }, [(p, s)])
    else (st, [])
  | _, _ => (st, [])

/-- Response of the GET /:sessionId/status route. -/
inductive StatusResp where
  | errorResp (message : String)
  | ok (sessionId : String) (status : SessionStatus) (hasActivePty : Bool)
deriving DecidableEq

/-- The GET /:sessionId/status handler of terminal.ts: report `running`
when a live PTY is registered, otherwise report the persisted status
as-is; the session record is never written. -/
def getTerminalStatus (st : TermState) (sessionId userId : String) : StatusResp :=
  match getTerminalSession st.sessions sessionId with
  | none => StatusResp.errorResp "Session not found"
  | some s =>
    if s.user_id = userId then
      let isRunning := (lookupA st.activePtys sessionId).isSome
      StatusResp.ok sessionId (if isRunning then SessionStatus.running else s.status) isRunning
    else StatusResp.errorResp "Session not found"

/-- The status the routes observe for a session id, for stating how the
handlers change the persisted records. -/
def statusOf (db : List SessionRec) (sid : String) : Option SessionStatus :=
  (getTerminalSession db sid).map (fun s => s.status)

/-- The last-activity timestamp the routes observe for a session id. -/
def lastActivityOf (db : List SessionRec) (sid : String) : Option Nat :=
  (getTerminalSession db sid).map (fun s => s.last_activity_at)

/-- Persisted Repository record (repositories.ts). -/
structure RepositoryRec where
  id : String
  user_id : String
  name : String
  git_url : String
  default_branch : String
  local_path : String
deriving DecidableEq

/-- Persisted Workspace record (repositories.ts). -/
structure WorkspaceRec where
  id : String
  repository_id : String
  branch : String
  directory_path : String
deriving DecidableEq

/-- State touched by the workspace-creation route: persisted repositories
and workspaces, plus the filesystem side effects (directories that exist
and git worktrees registered against a clone). -/
structure RepoFsState where
  repos : List RepositoryRec
  workspaces : List WorkspaceRec
  dirs : List String
  worktrees : List (String × String)
deriving DecidableEq

/-- Modelled from the spec: `getRepository(id)` of the persistence
interface; the repository/workspace accessors imported by
repositories.ts are defined nowhere in the source tree (the database
module in src/server/src/index.ts holds only user, auth-session,
terminal-session, oauth-state and usage operations). -/
def getRepository : List RepositoryRec → String → Option RepositoryRec
  | [], _ => none
  | r :: rest, id => if r.id = id then some r else getRepository rest id

/-- Modelled from the spec: `getWorkspaceByBranch(repositoryId, branch)`
of the persistence interface (absent from the source tree like
getRepository), embodying the lookup behind the invariant of at most one
Workspace per (repository id, branch) pair. -/
def getWorkspaceByBranch : List WorkspaceRec → String → String → Option WorkspaceRec
  | [], _, _ => none
  | w :: rest, rid, b =>
    if w.repository_id = rid ∧ w.branch = b then some w
    else getWorkspaceByBranch rest rid b

/-- Models `fs.mkdirSync(d, recursive)`: a no-op when the directory
already exists. -/
def addDir (dirs : List String) (d : String) : List String :=
  if dirs.contains d then dirs else d :: dirs

/-- Models `fs.rmSync(d, recursive, force)`. -/
def removeDir (dirs : List String) (d : String) : List String :=
  dirs.filter (fun x => x != d)

/-- removeWorktree from repositories.ts: `git worktree remove --force`,
tolerating a missing worktree. -/
def removeWorktree (wts : List (String × String)) (repoPath worktreePath : String) :
    List (String × String) :=
  wts.filter (fun p => !(p.1 == repoPath && p.2 == worktreePath))

/-- Models JavaScript truthiness of an optional string (`undefined` and
the empty string are falsy), as in `if (!branch)`. -/
def jsTruthyStrOpt : Option String → Bool
  | some s => s != ""
  | none => false

/-- Responses of the POST /:id/workspaces route. -/
inductive WorkspaceResp where
  | badRequest (message : String)
  | notFound (message : String)
  | conflict (message : String) (w : WorkspaceRec)
  | created (w : WorkspaceRec)
  | serverError (message : String)
deriving DecidableEq

/-- The POST /:id/workspaces handler of repositories.ts: validate the
branch and repository, reject with 409 when a Workspace for the
(repository, branch) pair already exists (before touching the
filesystem), otherwise create the parent directory and the git worktree
(`worktreeOk` says whether the git command succeeds) and persist the
record, rolling the worktree and directory back on failure. -/
def createWorkspaceHandler (st : RepoFsState) (userId repoId : String)
    (branch : Option String) (newWorkspaceId : String) (workspaceBasePath : String)
    (worktreeOk : Bool) : RepoFsState × WorkspaceResp :=
  if jsTruthyStrOpt branch = false then
    (st, WorkspaceResp.badRequest "branch is required")
  else
    let b := branch.getD ""
    match getRepository st.repos repoId with
    | none => (st, WorkspaceResp.notFound "Repository not found")
    | some repo =>
      if repo.user_id = userId then
        match getWorkspaceByBranch st.workspaces repoId b with
        | some existing =>
          (st, WorkspaceResp.conflict "Workspace already exists for this branch" existing)
        | none =>
          let parentDir := pathJoin (pathJoin workspaceBasePath userId) "workspaces"
          let worktreePath := pathJoin parentDir newWorkspaceId
          let st1 := { st with dirs := addDir st.dirs parentDir }
          if worktreeOk then
            let w : WorkspaceRec :=
              { id := newWorkspaceId
                repository_id := repoId
                branch := b
                directory_path := worktreePath }
            ({ st1 with
                worktrees := (repo.local_path, worktreePath) :: st1.worktrees
                dirs := addDir st1.dirs worktreePath
                workspaces := st1.workspaces ++ [w] },
              WorkspaceResp.created w)
          else
            ({ st1 with
                worktrees := removeWorktree st1.worktrees repo.local_path worktreePath
                dirs := removeDir st1.dirs worktreePath },
              WorkspaceResp.serverError "Failed to create workspace")
      else (st, WorkspaceResp.notFound "Repository not found")

/-- The Workspace invariant of the data model: at most one Workspace per
(repository id, branch) pair. -/
def uniqueWorkspacePerPair (ws : List WorkspaceRec) : Prop :=
  ∀ w1 ∈ ws, ∀ w2 ∈ ws,
    w1.repository_id = w2.repository_id → w1.branch = w2.branch → w1 = w2

/-- Empty chat-route state (server start). -/
def chatInit : ChatState :=
  { activeProcesses := [], liveProcs := [], killedPids := [], nextPid := 0 }

/-- An ambient server environment with nothing set, for concrete runs. -/
def noEnv : String → Option String := fun _ => none

/-- A session record left with persisted status `running`. -/
def staleSession : SessionRec :=
  { id := "s1"
    user_id := "u1"
    container_id := none
    workspace_path := "/ws"
    project_name := none
    status := SessionStatus.running
    created_at := 0
    last_activity_at := 0 }

/-- Terminal-route state after a restart: the session record still says
`running` but the process registry is empty. -/
def staleTermState : TermState :=
  { activePtys := [], sessions := [staleSession], spawnedPids := [], killedPids := [], nextPid := 0 }

/-- Terminal-route state with a PTY process 42 registered and running for
session s1. -/
def runningTermState : TermState :=
  { activePtys := [("s1", 42)]
    sessions := [{ staleSession with status := SessionStatus.running }]
    spawnedPids := [42]
    killedPids := []
    nextPid := 43 }

/-- Chat-route state with an in-flight assistant process 7 registered for
session s1 (the `thinking` state). -/
def thinkingChatState : ChatState :=
  { activeProcesses := [("s1", 7)]
    liveProcs := [{ pid := 7, sessionId := "s1" }]
    killedPids := []
    nextPid := 8 }

/-- A stopped session record of user u1 with the given id. -/
def stoppedSessionRec (n : String) : SessionRec :=
  { id := n
    user_id := "u1"
    container_id := none
    workspace_path := "/w"
    project_name := none
    status := SessionStatus.stopped
    created_at := 0
    last_activity_at := 0 }

/-- Five persisted session records of user u1, none of them live. -/
def fiveStoppedSessions : List SessionRec :=
  [stoppedSessionRec "a", stoppedSessionRec "b", stoppedSessionRec "c",
   stoppedSessionRec "d", stoppedSessionRec "e"]

/-- A repository record of user u1. -/
def demoRepo : RepositoryRec :=
  { id := "r1"
    user_id := "u1"
    name := "demo"
    git_url := "git@host:u/demo.git"
    default_branch := "main"
    local_path := "/data/workspaces/u1/repos/r1" }

/-- A workspace record claiming branch main of repository r1. -/
def demoWorkspace : WorkspaceRec :=
  { id := "w1"
    repository_id := "r1"
    branch := "main"
    directory_path := "/data/workspaces/u1/workspaces/w1" }

/-- Repository state in which branch main of r1 already has a
workspace. -/
def claimedRepoState : RepoFsState :=
  { repos := [demoRepo]
    workspaces := [demoWorkspace]
    dirs := ["/data/workspaces/u1/workspaces", "/data/workspaces/u1/workspaces/w1"]
    worktrees := [(demoRepo.local_path, demoWorkspace.directory_path)] }

/-- A text content block, as it appears inside a message record's content
array or under content_block_start. -/
def textBlock (t : String) : Json :=
  Json.obj [("type", Json.str "text"), ("text", Json.str t)]

/-- A tool_use content block with name, tool-call id and input. -/
def toolUseBlock (n i : String) (input : Json) : Json :=
  Json.obj [("type", Json.str "tool_use"), ("name", Json.str n),
            ("id", Json.str i), ("input", input)]

/-- A `message` record whose message body carries an array of content
blocks. -/
def messageRecord (blocks : List Json) : Json :=
  Json.obj [("type", Json.str "message"),
            ("message", Json.obj [("content", Json.arr blocks)])]

/-- A `content_block_start` record carrying one content block. -/
def contentBlockStartRecord (block : Json) : Json :=
  Json.obj [("type", Json.str "content_block_start"), ("content_block", block)]

/-- A bare `tool_use` record with top-level name, id and input fields. -/
def toolUseRecord (n i : String) (input : Json) : Json :=
  Json.obj [("type", Json.str "tool_use"), ("name", Json.str n),
            ("id", Json.str i), ("input", input)]

/-- A `tool_result` record with tool_use_id, content payload and error
flag. -/
def toolResultRecord (tuid : String) (content : Json) (isErr : Bool) : Json :=
  Json.obj [("type", Json.str "tool_result"), ("tool_use_id", Json.str tuid),
            ("content", content), ("is_error", Json.bool isErr)]

/-- A final aggregate `result` record. -/
def resultRecord (r : Json) : Json :=
  Json.obj [("type", Json.str "result"), ("result", r)]

/-- A fresh registry insertion is found by lookup. -/
theorem lookupA_setA (m : List (String × Nat)) (key : String) (v : Nat) :
    lookupA (setA m key v) key = some v := by
  simp [setA, lookupA]

/-- After removal, lookup of the removed key fails. -/
theorem lookupA_removeA (m : List (String × Nat)) (key : String) :
    lookupA (removeA m key) key = none := by
  induction m with
  | nil => rfl
  | cons kv rest ih =>
    obtain ⟨k, v⟩ := kv
    by_cases h : k = key
    · simpa [removeA, h] using ih
    · simpa [removeA, h, lookupA] using ih

/-- Persisting a status update is observed by the status accessor. -/
theorem statusOf_updateStatus (db : List SessionRec) (sid : String) (st : SessionStatus) :
    statusOf (updateTerminalSessionStatus db sid st) sid
      = (statusOf db sid).map (fun _ => st) := by
  induction db with
  | nil => rfl
  | cons s rest ih =>
    by_cases h : s.id = sid
    · simp [statusOf, updateTerminalSessionStatus, updateTerminalSession, applyUpdates,
        getTerminalSession, h]
    · simpa [statusOf, updateTerminalSessionStatus, updateTerminalSession, applyUpdates,
        getTerminalSession, h] using ih

/-- Persisting a last-activity update is observed by the activity
accessor. -/
theorem lastActivityOf_updateActivity (db : List SessionRec) (sid : String) (ts : Nat) :
    lastActivityOf (updateTerminalSessionActivity db sid ts) sid
      = (lastActivityOf db sid).map (fun _ => ts) := by
  induction db with
  | nil => rfl
  | cons s rest ih =>
    by_cases h : s.id = sid
    · simp [lastActivityOf, updateTerminalSessionActivity, updateTerminalSession, applyUpdates,
        getTerminalSession, h]
    · simpa [lastActivityOf, updateTerminalSessionActivity, updateTerminalSession, applyUpdates,
        getTerminalSession, h] using ih

/-- String concatenation on the left is cancellative. -/
theorem strAppend_cancel_left (s a b : String) (h : s ++ a = s ++ b) : a = b := by
  have hd := congrArg String.data h
  simp [String.data_append] at hd
  cases a with
  | mk la =>
    cases b with
    | mk lb =>
      simp at hd
      simp [hd]

/-- A failed workspace-by-branch lookup means no record holds the pair. -/
theorem getWorkspaceByBranch_none (ws : List WorkspaceRec) (rid b : String)
    (h : getWorkspaceByBranch ws rid b = none) :
    ∀ w ∈ ws, ¬(w.repository_id = rid ∧ w.branch = b) := by
  induction ws with
  | nil => intro w hw; cases hw
  | cons w0 rest ih =>
    intro w hw
    by_cases hp : w0.repository_id = rid ∧ w0.branch = b
    · simp [getWorkspaceByBranch, hp] at h
    · rcases List.mem_cons.mp hw with hw1 | hw1
      · subst hw1; exact hp
      · exact ih (by simpa [getWorkspaceByBranch, hp] using h) w hw1

/-- C1 counterexample: from the empty chat state, two consecutive `user`
messages for session s1 with no process exit in between leave two live,
unkilled assistant processes for s1; the second message was neither
rejected nor queued and the registry now names only the newer process. -/
theorem C1_counterexample :
    (((handleUserMessage (handleUserMessage chatInit "s1" "/ws" "u1" "first" noEnv 0).1
        "s1" "/ws" "u1" "second" noEnv 1).1.liveProcs.filter
          (fun p => p.sessionId == "s1")).length = 2) ∧
    ((handleUserMessage (handleUserMessage chatInit "s1" "/ws" "u1" "first" noEnv 0).1
        "s1" "/ws" "u1" "second" noEnv 1).1.killedPids = []) ∧
    (lookupA (handleUserMessage (handleUserMessage chatInit "s1" "/ws" "u1" "first" noEnv 0).1
        "s1" "/ws" "u1" "second" noEnv 1).1.activeProcesses "s1" = some 1) := by
  decide

/-- C1 (amended): a `user` message is handled unconditionally, whatever
the session's current state: the handler spawns exactly one new assistant
process, prepends it to the live processes, overwrites the session's
registry entry with it, kills nothing, and emits the user echo and the
`thinking` status rather than any rejection. -/
theorem C1_user_message_always_spawns (st : ChatState)
    (sid wp uid content : String) (ambient : String → Option String) (now : Nat) :
    (handleUserMessage st sid wp uid content ambient now).1.liveProcs
        = { pid := st.nextPid, sessionId := sid } :: st.liveProcs ∧
    lookupA (handleUserMessage st sid wp uid content ambient now).1.activeProcesses sid
        = some st.nextPid ∧
    (handleUserMessage st sid wp uid content ambient now).1.killedPids = st.killedPids ∧
    (handleUserMessage st sid wp uid content ambient now).2.1
        = [ChatMsg.userMsg content now, ChatMsg.statusMsg "thinking" none] :=
  ⟨rfl, lookupA_setA st.activeProcesses sid st.nextPid, rfl, rfl⟩

/-- C2 counterexample: for a session persisted as `running` while the
process registry is empty (the crash-recovery case), the status endpoint
reports the stale `running` status back unchanged instead of `stopped`. -/
theorem C2_counterexample :
    getTerminalStatus staleTermState "s1" "u1"
        = StatusResp.ok "s1" SessionStatus.running false ∧
    getTerminalStatus staleTermState "s1" "u1"
        ≠ StatusResp.ok "s1" SessionStatus.stopped false := by
  decide

/-- C2 (amended): when no live registry entry exists for the session, the
status endpoint reports the persisted status unchanged (possibly a stale
`running`), with `hasActivePty` false; nothing reconciles the record to
`stopped`. -/
theorem C2_status_reports_persisted (st : TermState) (sid uid : String) (s : SessionRec)
    (hs : getTerminalSession st.sessions sid = some s) (hu : s.user_id = uid)
    (hp : lookupA st.activePtys sid = none) :
    getTerminalStatus st sid uid = StatusResp.ok sid s.status false := by
  simp [getTerminalStatus, hs, hu, hp]

/-- C2 witness: the amended statement applied at the concrete stale
state. -/
theorem C2_status_reports_persisted_witness :
    getTerminalStatus staleTermState "s1" "u1"
      = StatusResp.ok "s1" SessionStatus.running false :=
  C2_status_reports_persisted staleTermState "s1" "u1" staleSession rfl rfl rfl

/-- C3 counterexample: a user with five persisted sessions, none of them
live (all `stopped`, zero live count), is refused session creation and no
record is committed — refuting that a user with strictly fewer live
sessions than the maximum can always create a session. -/
theorem C3_counterexample :
    liveSessionCountSpec fiveStoppedSessions "u1" = 0 ∧
    liveSessionCountSpec fiveStoppedSessions "u1" < maxSessionsPerUser ∧
    (createSessionHandler fiveStoppedSessions "u1" "new" none "/base" 7).2
        = CreateSessionResp.quotaError "Maximum 5 sessions allowed" ∧
    (createSessionHandler fiveStoppedSessions "u1" "new" none "/base" 7).1
        = fiveStoppedSessions := by
  decide

/-- C3 (amended): session creation fails with the quota error, committing
no new record, exactly when the total number of the user's persisted
session records — of any status, live or not — has reached
maxSessionsPerUser (default 5); with strictly fewer records a new record
for the user is appended. -/
theorem C3_quota_counts_all_records (db : List SessionRec) (uid newId : String)
    (pn : Option String) (base : String) (now : Nat) :
    ((createSessionHandler db uid newId pn base now).2
        = CreateSessionResp.quotaError
            ("Maximum " ++ toString maxSessionsPerUser ++ " sessions allowed")
      ↔ maxSessionsPerUser ≤ (getUserTerminalSessions db uid).length) ∧
    (maxSessionsPerUser ≤ (getUserTerminalSessions db uid).length →
      (createSessionHandler db uid newId pn base now).1 = db) ∧
    ((getUserTerminalSessions db uid).length < maxSessionsPerUser →
      ∃ s, (createSessionHandler db uid newId pn base now).1 = db ++ [s] ∧
        s.user_id = uid ∧
        (createSessionHandler db uid newId pn base now).2 = CreateSessionResp.created s) := by
  by_cases h : maxSessionsPerUser ≤ (getUserTerminalSessions db uid).length
  · refine ⟨?_, fun _ => ?_, fun hlt => absurd h (not_le.mpr hlt)⟩ <;>
      simp [createSessionHandler, h]
  · refine ⟨?_, fun hc => absurd hc h, fun _ => ?_⟩
    · simp [createSessionHandler, h]
    · exact ⟨⟨newId, uid, none, pathJoin (pathJoin base uid) newId, pn,
          SessionStatus.created, now, now⟩,
        by simp [createSessionHandler, createTerminalSession, h], rfl,
        by simp [createSessionHandler, createTerminalSession, h]⟩

/-- C3 witness: the amended statement applied at the concrete database of
five stopped sessions. -/
theorem C3_quota_counts_all_records_witness :
    (createSessionHandler fiveStoppedSessions "u1" "new" none "/base" 7).1
      = fiveStoppedSessions :=
  (C3_quota_counts_all_records fiveStoppedSessions "u1" "new" none "/base" 7).2.1 (by decide)

/-- C4: a connection for a session id whose PTY is already registered
attaches to that same process: the registry lookup succeeds, no state
changes (in particular no new spawn and no registry write), the
attachment is to the registered pid, and the output handler bound to that
process forwards its subsequent chunks to the socket. -/
theorem C4_reattach_not_respawn (st : TermState) (sid : String) (pid : Nat)
    (h : lookupA st.activePtys sid = some pid) :
    (terminalConnect st sid).state = st ∧
    (terminalConnect st sid).attachedPid = pid ∧
    (terminalConnect st sid).spawned = false ∧
    (terminalConnect st sid).state.spawnedPids = st.spawnedPids ∧
    (∀ data, outputHandler true data = [TermOut.output data]) := by
  simp [terminalConnect, h, outputHandler]

/-- C4 witness: re-attachment at the concrete state with PTY 42 running
for s1. -/
theorem C4_reattach_not_respawn_witness :
    (terminalConnect runningTermState "s1").state = runningTermState ∧
    (terminalConnect runningTermState "s1").attachedPid = 42 ∧
    (terminalConnect runningTermState "s1").spawned = false ∧
    outputHandler true "hello" = [TermOut.output "hello"] :=
  ⟨(C4_reattach_not_respawn runningTermState "s1" 42 rfl).1,
   (C4_reattach_not_respawn runningTermState "s1" 42 rfl).2.1,
   (C4_reattach_not_respawn runningTermState "s1" 42 rfl).2.2.1,
   (C4_reattach_not_respawn runningTermState "s1" 42 rfl).2.2.2.2 "hello"⟩

/-- C5: the normalizer maps each raw record shape to the expected
Outbound Events: a message record with array content yields the
assistant/tool_use events of its text/tool_use blocks; a
content_block_start with a text block yields one assistant event; a bare
tool_use record yields exactly one tool_use event; a tool_result record
yields exactly one tool_result event, serializing a structured payload
with JSON.stringify and carrying the error flag; a final result record
yields zero events. -/
theorem C5_event_normalization (now : Nat) :
    (∀ blocks, processClaudeEvent now (messageRecord blocks)
        = blocks.filterMap (blockToMsg now)) ∧
    (∀ t, blockToMsg now (textBlock t)
        = some (ChatMsg.assistantMsg (some (Json.str t)) now)) ∧
    (∀ n i input, blockToMsg now (toolUseBlock n i input)
        = some (ChatMsg.toolUseMsg (some (Json.str n)) (some (Json.str i)) (some input) now)) ∧
    (∀ t, processClaudeEvent now (contentBlockStartRecord (textBlock t))
        = [ChatMsg.assistantMsg (some (Json.str t)) now]) ∧
    (∀ n i fields, n ≠ "" → i ≠ "" →
      processClaudeEvent now (toolUseRecord n i (Json.obj fields))
        = [ChatMsg.toolUseMsg (some (Json.str n)) (some (Json.str i))
            (some (Json.obj fields)) now]) ∧
    (∀ tuid s flag, tuid ≠ "" → s ≠ "" →
      processClaudeEvent now (toolResultRecord tuid (Json.str s) flag)
        = [ChatMsg.toolResultMsg (some (Json.str tuid)) (some s) flag now]) ∧
    (∀ tuid fields flag, tuid ≠ "" →
      processClaudeEvent now (toolResultRecord tuid (Json.obj fields) flag)
        = [ChatMsg.toolResultMsg (some (Json.str tuid))
            (some (Json.stringify (Json.obj fields))) flag now]) ∧
    (∀ r, processClaudeEvent now (resultRecord r) = []) := by
  refine ⟨fun blocks => rfl, fun t => rfl, fun n i input => rfl, fun t => rfl, ?_, ?_, ?_,
    fun r => rfl⟩
  · intro n i fields hn hi
    have hn2 : (n != "") = true := by simpa using hn
    have hi2 : (i != "") = true := by simpa using hi
    simp [processClaudeEvent, toolUseRecord, Json.getField, lookupField, jsOr, jsTruthy,
      hn2, hi2]
  · intro tuid s flag ht hs
    have ht2 : (tuid != "") = true := by simpa using ht
    have hs2 : (s != "") = true := by simpa using hs
    simp [processClaudeEvent, toolResultRecord, Json.getField, lookupField, jsOr, jsTruthy,
      resultTextOf, ht2, hs2]
  · intro tuid fields flag ht
    have ht2 : (tuid != "") = true := by simpa using ht
    simp [processClaudeEvent, toolResultRecord, Json.getField, lookupField, jsOr, jsTruthy,
      resultTextOf, ht2]

/-- C5 witness: normalization applied at concrete records. -/
theorem C5_event_normalization_witness :
    processClaudeEvent 3 (toolResultRecord "tid" (Json.str "ok") true)
      = [ChatMsg.toolResultMsg (some (Json.str "tid")) (some "ok") true 3] :=
  (C5_event_normalization 3).2.2.2.2.2.1 "tid" "ok" true (by decide) (by decide)

/-- C6: on PTY exit, for any exit code: the registry entry is removed,
the session status is persisted `stopped`, and exactly one `exit` frame
carrying the code followed by a normal closure (code 1000) goes to the
socket when it is open — and no frame when it is not. -/
theorem C6_pty_exit (st : TermState) (sid : String) (code : Int) (socketOpen : Bool) :
    lookupA (exitHandler st sid code socketOpen).1.activePtys sid = none ∧
    statusOf (exitHandler st sid code socketOpen).1.sessions sid
        = (statusOf st.sessions sid).map (fun _ => SessionStatus.stopped) ∧
    (exitHandler st sid code socketOpen).2.1
        = (if socketOpen then [TermOut.exit code] else []) ∧
    (exitHandler st sid code socketOpen).2.2
        = (if socketOpen then some (1000, "Process exited") else none) := by
  cases socketOpen <;>
    exact ⟨lookupA_removeA st.activePtys sid, statusOf_updateStatus st.sessions sid _, rfl, rfl⟩

/-- C7: the two close handlers are asymmetric: closing a terminal socket
changes nothing (the PTY keeps running and stays registered), while
closing a chat socket kills any in-flight assistant process for the
session and removes its registry entry. -/
theorem C7_close_asymmetry (tst : TermState) (tsid : String)
    (cst : ChatState) (csid : String) (pid : Nat)
    (h : lookupA cst.activeProcesses csid = some pid) :
    terminalSocketClose tst tsid = tst ∧
    pid ∈ (chatSocketClose cst csid).killedPids ∧
    lookupA (chatSocketClose cst csid).activeProcesses csid = none := by
  refine ⟨rfl, ?_, ?_⟩ <;>
    simp [chatSocketClose, abortCurrentProcess, h, lookupA_removeA]

/-- C7 witness: the asymmetry at concrete states (a running PTY state and
a thinking chat state for s1 with process 7). -/
theorem C7_close_asymmetry_witness :
    terminalSocketClose staleTermState "s1" = staleTermState ∧
    7 ∈ (chatSocketClose thinkingChatState "s1").killedPids ∧
    lookupA (chatSocketClose thinkingChatState "s1").activeProcesses "s1" = none :=
  C7_close_asymmetry staleTermState "s1" thinkingChatState "s1" 7 rfl

/-- C8: the assistant spawn satisfies the isolation contract: working
directory is the session workspace path, HOME and CLAUDE_CONFIG_DIR point
to the per-user credential directory (injective in the user id), the
remote-execution marker CLAUDE_CODE_REMOTE is set, and
ANTHROPIC_API_KEY is absent from the child environment whatever the
ambient server environment holds. -/
theorem C8_spawn_env_isolation (st : ChatState) (sid wp uid content : String)
    (ambient : String → Option String) (now : Nat) :
    (handleUserMessage st sid wp uid content ambient now).2.2.cwd = wp ∧
    (handleUserMessage st sid wp uid content ambient now).2.2.env "ANTHROPIC_API_KEY" = none ∧
    (handleUserMessage st sid wp uid content ambient now).2.2.env "CLAUDE_CODE_REMOTE"
        = some "1" ∧
    (handleUserMessage st sid wp uid content ambient now).2.2.env "HOME"
        = some (getUserClaudeConfigDir (ambient "HOME") uid) ∧
    (handleUserMessage st sid wp uid content ambient now).2.2.env "CLAUDE_CONFIG_DIR"
        = some (getUserClaudeConfigDir (ambient "HOME") uid) ∧
    (∀ h u1 u2, u1 ≠ u2 → getUserClaudeConfigDir h u1 ≠ getUserClaudeConfigDir h u2) := by
  refine ⟨rfl, rfl, rfl, rfl, rfl, ?_⟩
  intro hh u1 u2 hne heq
  exact hne (strAppend_cancel_left
    (pathJoin (jsOrStr hh "/tmp") ".claudelet-users" ++ "/") u1 u2 heq)

/-- C8 witness: the contract at a concrete spawn, and distinctness of two
concrete per-user directories. -/
theorem C8_spawn_env_isolation_witness :
    (handleUserMessage chatInit "s1" "/ws" "u1" "hi" noEnv 0).2.2.env "ANTHROPIC_API_KEY"
        = none ∧
    getUserClaudeConfigDir none "alice" ≠ getUserClaudeConfigDir none "bob" :=
  ⟨(C8_spawn_env_isolation chatInit "s1" "/ws" "u1" "hi" noEnv 0).2.1,
   (C8_spawn_env_isolation chatInit "s1" "/ws" "u1" "hi" noEnv 0).2.2.2.2.2 none "alice" "bob"
     (by decide)⟩

/-- The workspace-creation handler preserves the at-most-one-Workspace-
per-(repository, branch) invariant on every path. -/
theorem createWorkspaceHandler_preserves_unique (st : RepoFsState) (uid rid : String)
    (br : Option String) (nid base : String) (ok : Bool)
    (huniq : uniqueWorkspacePerPair st.workspaces) :
    uniqueWorkspacePerPair (createWorkspaceHandler st uid rid br nid base ok).1.workspaces := by
  by_cases h1 : jsTruthyStrOpt br = false
  · simpa [createWorkspaceHandler, h1] using huniq
  · rcases hm : getRepository st.repos rid with _ | repo
    · simpa [createWorkspaceHandler, h1, hm] using huniq
    · by_cases h2 : repo.user_id = uid
      · rcases hw : getWorkspaceByBranch st.workspaces rid (br.getD "") with _ | w0
        · have hnone := getWorkspaceByBranch_none st.workspaces rid (br.getD "") hw
          cases ok with
          | false => simpa [createWorkspaceHandler, h1, hm, h2, hw] using huniq
          | true =>
            have hws : (createWorkspaceHandler st uid rid br nid base true).1.workspaces
                = st.workspaces ++
                  [{ id := nid, repository_id := rid, branch := br.getD "",
                     directory_path :=
                       pathJoin (pathJoin (pathJoin base uid) "workspaces") nid }] := by
              simp [createWorkspaceHandler, h1, hm, h2, hw]
            rw [hws]
            intro w1 hw1 w2 hw2 hr hbr
            rcases List.mem_append.mp hw1 with h1a | h1b
            · rcases List.mem_append.mp hw2 with h2a | h2b
              · exact huniq w1 h1a w2 h2a hr hbr
              · have e2 := List.eq_of_mem_singleton h2b
                subst e2
                exact absurd ⟨hr, hbr⟩ (hnone w1 h1a)
            · have e1 := List.eq_of_mem_singleton h1b
              subst e1
              rcases List.mem_append.mp hw2 with h2a | h2b
              · exact absurd ⟨hr.symm, hbr.symm⟩ (hnone w2 h2a)
              · exact (List.eq_of_mem_singleton h2b).symm
        · simpa [createWorkspaceHandler, h1, hm, h2, hw] using huniq
      · simpa [createWorkspaceHandler, h1, hm, h2] using huniq

/-- C9: when a Workspace already exists for the (repository, branch)
pair, a second creation attempt returns the 409 conflict and leaves the
whole state — records, directories and registered worktrees — exactly as
it was; moreover the handler preserves the at-most-one-Workspace-per-pair
invariant on every input. -/
theorem C9_duplicate_workspace_rejected (st : RepoFsState) (uid repoId b newId base : String)
    (worktreeOk : Bool) (repo : RepositoryRec) (w : WorkspaceRec)
    (hrepo : getRepository st.repos repoId = some repo) (hown : repo.user_id = uid)
    (hb : b ≠ "") (hdup : getWorkspaceByBranch st.workspaces repoId b = some w) :
    createWorkspaceHandler st uid repoId (some b) newId base worktreeOk
        = (st, WorkspaceResp.conflict "Workspace already exists for this branch" w) ∧
    (∀ st0 uid0 rid0 br nid0 base0 ok0, uniqueWorkspacePerPair st0.workspaces →
      uniqueWorkspacePerPair
        (createWorkspaceHandler st0 uid0 rid0 br nid0 base0 ok0).1.workspaces) := by
  constructor
  · have hb2 : (b != "") = true := by simpa using hb
    simp [createWorkspaceHandler, jsTruthyStrOpt, hb2, hrepo, hown, hdup]
  · exact fun st0 uid0 rid0 br nid0 base0 ok0 huniq =>
      createWorkspaceHandler_preserves_unique st0 uid0 rid0 br nid0 base0 ok0 huniq

/-- C9 witness: the duplicate rejection at the concrete claimed state. -/
theorem C9_duplicate_workspace_rejected_witness :
    createWorkspaceHandler claimedRepoState "u1" "r1" (some "main") "w2" "/data/workspaces" true
      = (claimedRepoState,
         WorkspaceResp.conflict "Workspace already exists for this branch" demoWorkspace) :=
  (C9_duplicate_workspace_rejected claimedRepoState "u1" "r1" "main" "w2" "/data/workspaces"
      true demoRepo demoWorkspace rfl rfl (by decide) rfl).1

/-- C10: an `input` frame with absent or empty data neither writes to the
PTY nor touches the session record; a frame with non-empty data (with a
PTY in scope) writes exactly that data to the PTY and persists the
last-activity timestamp, which the activity accessor then observes. -/
theorem C10_empty_input_noop (st : TermState) (sid : String) (pty : Option Nat) (now : Nat) :
    handleInputFrame st sid pty none now = (st, []) ∧
    handleInputFrame st sid pty (some "") now = (st, []) ∧
    (∀ p s, s ≠ "" →
      handleInputFrame st sid (some p) (some s) now
        = ({ st with sessions := updateTerminalSessionActivity st.sessions sid now },
           [(p, s)])) ∧
    lastActivityOf (updateTerminalSessionActivity st.sessions sid now) sid
        = (lastActivityOf st.sessions sid).map (fun _ => now) := by
  refine ⟨?_, ?_, ?_, lastActivityOf_updateActivity st.sessions sid now⟩
  · cases pty <;> rfl
  · cases pty <;> rfl
  · intro p s hs
    have hs2 : (s != "") = true := by simpa using hs
    simp [handleInputFrame, hs2]

/-- C10 witness: the non-empty case applied at a concrete frame. -/
theorem C10_empty_input_noop_witness :
    handleInputFrame staleTermState "s1" (some 5) (some "ls") 9
      = ({ staleTermState with
            sessions := updateTerminalSessionActivity staleTermState.sessions "s1" 9 },
         [(5, "ls")]) :=
  (C10_empty_input_noop staleTermState "s1" (some 5) 9).2.2.1 5 "ls" (by decide)
